import Mathlib

/-!
Verification of the career_mgmt repository's text-extraction and analysis
orchestration layer (`src/resume_analyzer/resume_analyzer.py` and
`pages/home.py`), shallowly embedded in Lean 4.

Modelling conventions:
  * JSON values returned by the remote service are the inductive `Json`
    (integers stand in for JSON numbers; the claims only involve integers).
  * Python exceptions are `Except AnalysisError`.
  * A file on disk is a `FileContent`: what each extraction library would
    observe about it (pdfplumber/PyPDF2 page texts, python-docx paragraphs
    and table cells, raw bytes for text-mode reads).
  * Python's `open(path, 'r', encoding=...)` performs universal-newline
    translation on the decoded text; this is modelled by `universalNewlines`.
  * The remote service is an oracle: the outcome of each of the three
    chat-completion calls (including JSON parsing) is a field of `Oracle`.
-/

namespace CareerMgmt

/-- JSON values as produced by `json.loads` on the remote replies. -/
inductive Json where
  | null : Json
  | bool (b : Bool) : Json
  | num (n : Int) : Json
  | str (s : String) : Json
  | arr (xs : List Json) : Json
  | obj (fields : List (String × Json)) : Json
deriving Repr

/-- Classified errors: each constructor corresponds to one kind of Python
exception raised by the analyzer code. -/
inductive AnalysisError where
  | fileNotFound (path : String) : AnalysisError
  | validationError (msg : String) : AnalysisError
  | extractionError (msg : String) : AnalysisError
  | remoteError (msg : String) : AnalysisError
  | attributeError (key : String) : AnalysisError
deriving DecidableEq, Repr

/-- First-match lookup in an association list (Python dict lookup; the dicts
coming from `json.loads` have unique keys). -/
def getField : List (String × Json) → String → Option Json
  | [], _ => none
  | (k, v) :: rest, key => if key = k then some v else getField rest key

/-- Python `dict.get(key, default)`. -/
def dictGetD (fields : List (String × Json)) (key : String) (d : Json) : Json :=
  (getField fields key).getD d

/-- Python `result.get(key, default)` where `result` came from `json.loads`:
an `AttributeError` is raised when the parsed value is not a dict. -/
def objGet (j : Json) (key : String) (d : Json) : Except AnalysisError Json :=
  match j with
  | .obj fields => .ok (dictGetD fields key d)
  | _ => .error (.attributeError key)

/-- Python `str` whitespace for `strip()` with no arguments (ASCII range):
space, tab, newline, carriage return, vertical tab, form feed. -/
def isPyWhitespace (c : Char) : Bool :=
  c = ' ' || c = '\t' || c = '\n' || c = '\r' || c = '\x0b' || c = '\x0c'

/-- Truthiness of Python `s.strip()`: `isBlank s` iff `s.strip()` is falsy,
i.e. `s` has no non-whitespace character. -/
def isBlank (s : String) : Bool :=
  s.data.all isPyWhitespace

/-- ASCII lowercasing of one character (Python `str.lower` on ASCII). -/
def charLower (c : Char) : Char :=
  if 65 ≤ c.toNat && c.toNat ≤ 90 then Char.ofNat (c.toNat + 32) else c

/-- ASCII lowercasing (Python `str.lower`; extensions are ASCII). -/
def strToLower (s : String) : String :=
  (s.data.map charLower).asString

/-- Split a character list at every occurrence of a separator. -/
def splitChar (sep : Char) : List Char → List (List Char)
  | [] => [[]]
  | c :: rest =>
    match splitChar sep rest with
    | [] => [[c]]
    | g :: gs => if c = sep then [] :: g :: gs else (c :: g) :: gs

/-- Python `str.endswith`. -/
def strEndsWith (s suf : String) : Bool :=
  suf.data.isSuffixOf s.data

/-- Continuation byte test for UTF-8 (0x80..0xBF). -/
def isCont (b : Nat) : Bool := 128 ≤ b && b < 192

/-- One step of strict UTF-8 decoding: given a lead byte and the remaining
bytes, return the decoded code point and the bytes after it, or `none` on an
invalid sequence. Rejects continuation-byte leads, overlong forms (lead
bytes 0xC0/0xC1, and the tightened second-byte ranges for 0xE0 and 0xF0),
surrogates (0xED with second byte ≥ 0xA0) and code points above U+10FFFF
(lead bytes above 0xF4, and 0xF4 with second byte ≥ 0x90). -/
def utf8Step (b : Nat) (rest : List Nat) : Option (Nat × List Nat) :=
  if b < 128 then some (b, rest)
  else if b < 194 then none
  else if b < 224 then
    match rest with
    | b1 :: rest2 =>
      if isCont b1 then some ((b - 192) * 64 + (b1 - 128), rest2) else none
    | [] => none
  else if b < 240 then
    match rest with
    | b1 :: b2 :: rest2 =>
      if (if b = 224 then 160 else 128) ≤ b1 &&
          b1 < (if b = 237 then 160 else 192) && isCont b2 then
        some ((b - 224) * 4096 + (b1 - 128) * 64 + (b2 - 128), rest2)
      else none
    | _ => none
  else if b < 245 then
    match rest with
    | b1 :: b2 :: b3 :: rest2 =>
      if (if b = 240 then 144 else 128) ≤ b1 &&
          b1 < (if b = 244 then 144 else 192) && isCont b2 && isCont b3 then
        some ((b - 240) * 262144 + (b1 - 128) * 4096 +
              (b2 - 128) * 64 + (b3 - 128), rest2)
      else none
    | _ => none
  else none

/-- Recursor for `utf8Decode`, structurally recursive on a fuel bound; each
step consumes at least one byte, so fuel `bs.length` always suffices and the
out-of-fuel case is unreachable from `utf8Decode`. -/
def utf8DecodeGo : Nat → List Nat → Option (List Nat)
  | _, [] => some []
  | 0, _ :: _ => none
  | fuel + 1, b :: rest =>
    match utf8Step b rest with
    | some (cp, rest2) => (utf8DecodeGo fuel rest2).map (fun cs => cp :: cs)
    | none => none

/-- Strict UTF-8 decoding of a byte sequence to code points, as performed by
Python's `str` decoding with `errors='strict'`. `none` models
`UnicodeDecodeError`. -/
def utf8Decode (bs : List Nat) : Option (List Nat) :=
  utf8DecodeGo bs.length bs

/-- Code points to a Lean string (all code points produced by `utf8Decode`
or Latin-1 are valid scalar values). -/
def codepointsToString (cps : List Nat) : String :=
  (cps.map Char.ofNat).asString

/-- Universal-newline translation applied by Python text-mode reads with
`newline=None`: every `\r\n` and lone `\r` becomes `\n`. -/
def universalNewlines : List Char → List Char
  | [] => []
  | [c] => if c = '\r' then ['\n'] else [c]
  | c :: d :: rest =>
    if c = '\r' then
      if d = '\n' then '\n' :: universalNewlines rest
      else '\n' :: universalNewlines (d :: rest)
    else c :: universalNewlines (d :: rest)

/-- `ResumeAnalyzer._extract_from_txt`: read the file as UTF-8 text; on
`UnicodeDecodeError` retry with Latin-1 (each byte is its own code point).
Both reads are text-mode, hence newline-translated. Never fails. -/
def extract_from_txt (bs : List Nat) : String :=
  match utf8Decode bs with
  | some cps => (universalNewlines (cps.map Char.ofNat)).asString
  | none => (universalNewlines (bs.map Char.ofNat)).asString

/-- What the two PDF libraries observe about one file on disk.
`plumberPages`: the values of `page.extract_text()` that pdfplumber yields
before a possible exception (`plumberThrows`). `pypdfPages`: the page texts
PyPDF2 would yield, unless it raises (`pypdfThrows`). `bytes`: the raw bytes
of the file, for text-mode reads. -/
structure PdfFile where
  plumberPages : List (Option String)
  plumberThrows : Bool
  pypdfPages : List String
  pypdfThrows : Bool
  bytes : List Nat
deriving DecidableEq, Repr

/-- What python-docx observes about a .docx file: paragraph texts, and table
texts as tables of rows of cell texts; `throws` models `Document(path)`
raising. `bytes`: raw bytes for text-mode reads. -/
structure DocxFile where
  paragraphs : List String
  tables : List (List (List String))
  throws : Bool
  bytes : List Nat
deriving DecidableEq, Repr

/-- A file on disk, as seen by the extraction libraries. -/
inductive FileContent where
  | raw (bytes : List Nat) : FileContent
  | pdf (f : PdfFile) : FileContent
  | docx (f : DocxFile) : FileContent
deriving DecidableEq, Repr

/-- Raw bytes of the file (what a text-mode `open` reads). -/
def contentBytes : FileContent → List Nat
  | .raw bs => bs
  | .pdf f => f.bytes
  | .docx f => f.bytes

/-- Text accumulated by the pdfplumber loop in `_extract_from_pdf`:
`text += page_text + "\n"` for every truthy `page.extract_text()`. -/
def plumberText (f : PdfFile) : String :=
  f.plumberPages.foldl
    (fun acc p =>
      match p with
      | some s => if s = "" then acc else acc ++ s ++ "\n"
      | none => acc)
    ""

/-- Method 2 of `_extract_from_pdf`: PyPDF2 appends `page.extract_text() + "\n"`
for every page onto the text already accumulated; any exception, and the
"No text could be extracted" case, surface as the wrapped failure message. -/
def pdfMethod2 (f : PdfFile) (text : String) : Except String String :=
  if f.pypdfThrows then
    .error "Failed to extract text from PDF: PyPDF2 error"
  else if isBlank (f.pypdfPages.foldl (fun acc p => acc ++ p ++ "\n") text) then
    .error "Failed to extract text from PDF: No text could be extracted from PDF"
  else .ok (f.pypdfPages.foldl (fun acc p => acc ++ p ++ "\n") text)

/-- `ResumeAnalyzer._extract_from_pdf`: try pdfplumber; if it raised, or its
accumulated text is whitespace-only, fall back to PyPDF2 (the accumulator
carries over). -/
def extract_from_pdf (f : PdfFile) : Except String String :=
  if f.plumberThrows then pdfMethod2 f (plumberText f)
  else if isBlank (plumberText f) then pdfMethod2 f (plumberText f)
  else .ok (plumberText f)

/-- `ResumeAnalyzer._extract_from_docx`: collect paragraph texts whose strip
is non-empty, then every table cell text whose strip is non-empty (tables,
then rows, then cells, in order); join with newlines. -/
def extract_from_docx (f : DocxFile) : Except String String :=
  if f.throws then .error "Failed to extract text from DOCX"
  else .ok (String.intercalate "\n"
    (f.tables.foldl
      (fun acc t => t.foldl
        (fun acc2 r => r.foldl
          (fun acc3 c => if isBlank c then acc3 else acc3 ++ [c]) acc2) acc)
      (f.paragraphs.foldl
        (fun acc p => if isBlank p then acc else acc ++ [p])
        ([] : List String))))

/-- Applying `_extract_from_pdf` to a file: pdfplumber and PyPDF2 both raise
on a file that is not a PDF. -/
def extract_from_pdf_content : FileContent → Except String String
  | .pdf f => extract_from_pdf f
  | _ => .error "Failed to extract text from PDF: not a PDF"

/-- Applying `_extract_from_docx` to a file: python-docx raises on a file
that is not a .docx package. -/
def extract_from_docx_content : FileContent → Except String String
  | .docx f => extract_from_docx f
  | _ => .error "Failed to extract text from DOCX: not a DOCX"

/-- Final path component, as `pathlib.PurePath.name` (POSIX separators). -/
def pathBasename (p : String) : String :=
  ((splitChar '/' p.data).getLastD []).asString

/-- Index of the last occurrence of a character in a list (Python `rfind`). -/
def lastIdxOf (c : Char) (cs : List Char) : Option Nat :=
  (List.range cs.length).foldl
    (fun acc i => if cs.getD i ' ' = c then some i else acc) none

/-- `pathlib.PurePath.suffix`: the part of the name from its last dot,
provided that dot is neither the first nor the last character of the name. -/
def pathSuffix (p : String) : String :=
  let name := (pathBasename p).data
  match lastIdxOf '.' name with
  | some i => if 0 < i ∧ i < name.length - 1 then (name.drop i).asString else ""
  | none => ""

/-- `ResumeAnalyzer.extract_text_from_file`: check existence, reject the
legacy `.doc` extension before trying anything, then dispatch on the
lowercased suffix; `.txt`, `.text` and unknown extensions are all read as
plain text. Errors raised inside the dispatch are wrapped with the
"Error reading file" message. -/
def extract_text_from_file (file_path : String)
    (fs : String → Option FileContent) : Except AnalysisError String :=
  match fs file_path with
  | none => .error (.fileNotFound file_path)
  | some content =>
    let file_extension := strToLower (pathSuffix file_path)
    if file_extension = ".doc" then
      .error (.extractionError
        "Legacy .doc format is not supported. Please convert your file to .docx format using Microsoft Word or a free converter.")
    else
      let result :=
        if file_extension = ".pdf" then extract_from_pdf_content content
        else if file_extension = ".docx" then extract_from_docx_content content
        else .ok (extract_from_txt (contentBytes content))
      match result with
      | .ok s => .ok s
      | .error msg =>
        .error (.extractionError ("Error reading file " ++ file_path ++ ": " ++ msg))

/-- The remote text-generation service as an oracle: the outcome of each of
the three chat-completion-plus-`json.loads` exchanges of one `analyze` call.
An `error` is any exception inside the corresponding `try` block (network
failure, non-2xx, non-JSON reply). -/
structure Oracle where
  scoreReply : Except String Json
  skillsReply : Except String Json
  recsReply : Except String Json

/-- `ResumeAnalyzer.calculate_similarity_score`: the call and `json.loads`
happen inside a `try` whose handler re-raises with a step-specific message;
the parsed value is returned as-is. -/
def calculate_similarity_score (o : Oracle) : Except AnalysisError Json :=
  match o.scoreReply with
  | .ok j => .ok j
  | .error e => .error (.remoteError ("Error calculating similarity score: " ++ e))

/-- `ResumeAnalyzer.extract_skills`: same shape as the score step. -/
def extract_skills (o : Oracle) : Except AnalysisError Json :=
  match o.skillsReply with
  | .ok j => .ok j
  | .error e => .error (.remoteError ("Error extracting skills: " ++ e))

/-- `ResumeAnalyzer.generate_recommendations`: the `result.get` happens inside
the `try`, so a non-dict reply surfaces as the step's wrapped error; a dict
reply yields `result.get('recommendations', [])`. The `missing_skills`
argument only feeds the prompt text, which is not modelled. -/
def generate_recommendations (o : Oracle) (missing_skills : Json) :
    Except AnalysisError Json :=
  match o.recsReply with
  | .ok j =>
    match j with
    | .obj fields => .ok (dictGetD fields "recommendations" (.arr []))
    | _ => .error (.remoteError "Error generating recommendations: AttributeError")
  | .error e => .error (.remoteError ("Error generating recommendations: " ++ e))

/-- The keys of the merged result dict, in construction order. -/
def resultKeys : List String :=
  ["similarity_score", "overall_match", "key_strengths", "analysis_summary",
   "matching_skills", "missing_skills", "partial_matches", "recommendations"]

/-- Body of `ResumeAnalyzer.analyze` after the file-path substitution:
validate both texts, run the three steps in order, then compile the result
dict (each field via `.get` with its default). -/
def analyze_texts (o : Oracle) (job_description resume : String) :
    Except AnalysisError (List (String × Json)) :=
  if isBlank job_description then
    .error (.validationError "Job description cannot be empty")
  else if isBlank resume then
    .error (.validationError "Resume cannot be empty")
  else
    (calculate_similarity_score o).bind fun similarity_result =>
    (extract_skills o).bind fun skills_result =>
    (objGet skills_result "missing_skills" (.arr [])).bind fun missing =>
    (generate_recommendations o missing).bind fun recommendations =>
    (objGet similarity_result "similarity_score" (.num 0)).bind fun v1 =>
    (objGet similarity_result "overall_match" (.str "Unknown")).bind fun v2 =>
    (objGet similarity_result "key_strengths" (.arr [])).bind fun v3 =>
    (objGet similarity_result "analysis_summary" (.str "")).bind fun v4 =>
    (objGet skills_result "matching_skills" (.arr [])).bind fun v5 =>
    (objGet skills_result "missing_skills" (.arr [])).bind fun v6 =>
    (objGet skills_result "partial_matches" (.arr [])).bind fun v7 =>
    .ok [("similarity_score", v1), ("overall_match", v2), ("key_strengths", v3),
         ("analysis_summary", v4), ("matching_skills", v5), ("missing_skills", v6),
         ("partial_matches", v7), ("recommendations", recommendations)]

/-- `ResumeAnalyzer.analyze`: an input string that names an existing file is
first replaced by that file's extracted text (`os.path.isfile` then
`extract_text_from_file`), then the texts are analyzed. -/
def analyze (fs : String → Option FileContent) (o : Oracle)
    (job_description resume : String) :
    Except AnalysisError (List (String × Json)) :=
  (if (fs job_description).isSome
   then extract_text_from_file job_description fs
   else .ok job_description).bind fun jobText =>
  (if (fs resume).isSome
   then extract_text_from_file resume fs
   else .ok resume).bind fun resumeText =>
  analyze_texts o jobText resumeText

/-- `parse_contents` from `pages/home.py`, with the filesystem side effect made
explicit: `fsFiles` is the list of temporary-file paths present before the
call, and the second component of the result is the list present after it.
A `.txt` upload is decoded in memory (`bytes.decode('utf-8')`, no newline
translation; a `UnicodeDecodeError` is caught and yields `None`). A `.pdf`
or `.docx` upload is written to `./tmp/<filename>`, extracted, and the
temporary file is removed — but only on the success path: an extraction
exception jumps to the handler, which returns `None` without removing it. -/
def parse_contents (fsFiles : List String) (filename : String)
    (content : FileContent) : Option String × List String :=
  if strEndsWith filename ".txt" then
    match utf8Decode (contentBytes content) with
    | some cps => (some (codepointsToString cps), fsFiles)
    | none => (none, fsFiles)
  else if strEndsWith filename ".pdf" then
    let temp_path := "./tmp/" ++ filename
    let fs1 := fsFiles ++ [temp_path]
    match extract_from_pdf_content content with
    | .ok t => (some t, fs1.erase temp_path)
    | .error _ => (none, fs1)
  else if strEndsWith filename ".docx" then
    let temp_path := "./tmp/" ++ filename
    let fs1 := fsFiles ++ [temp_path]
    match extract_from_docx_content content with
    | .ok t => (some t, fs1.erase temp_path)
    | .error _ => (none, fs1)
  else (none, fsFiles)

/-! ## Demonstration inputs (used by witnesses and counterexamples) -/

/-- A filesystem with no files. -/
def emptyFs : String → Option FileContent := fun _ => none

/-- An oracle whose three replies are empty JSON objects. -/
def emptyOracle : Oracle := ⟨.ok (.obj []), .ok (.obj []), .ok (.obj [])⟩

/-- The merged result when all three replies are empty objects. -/
def allDefaultResult : List (String × Json) :=
  [("similarity_score", .num 0), ("overall_match", .str "Unknown"),
   ("key_strengths", .arr []), ("analysis_summary", .str ""),
   ("matching_skills", .arr []), ("missing_skills", .arr []),
   ("partial_matches", .arr []), ("recommendations", .arr [])]

/-- An oracle whose score reply carries an out-of-range similarity score. -/
def outOfRangeOracle : Oracle :=
  ⟨.ok (.obj [("similarity_score", .num 150)]), .ok (.obj []), .ok (.obj [])⟩

/-- The merged result for `outOfRangeOracle`. -/
def outOfRangeResult : List (String × Json) :=
  [("similarity_score", .num 150), ("overall_match", .str "Unknown"),
   ("key_strengths", .arr []), ("analysis_summary", .str ""),
   ("matching_skills", .arr []), ("missing_skills", .arr []),
   ("partial_matches", .arr []), ("recommendations", .arr [])]

/-- An oracle whose skills reply is an object without a `partial_matches`
key (and with one present key, to show presence is irrelevant). -/
def skillsMissingKeyOracle : Oracle :=
  ⟨.ok (.obj []), .ok (.obj [("matching_skills", .arr [.str "Python"])]),
   .ok (.obj [])⟩

/-- The merged result for `skillsMissingKeyOracle`. -/
def skillsMissingKeyResult : List (String × Json) :=
  [("similarity_score", .num 0), ("overall_match", .str "Unknown"),
   ("key_strengths", .arr []), ("analysis_summary", .str ""),
   ("matching_skills", .arr [.str "Python"]), ("missing_skills", .arr []),
   ("partial_matches", .arr []), ("recommendations", .arr [])]

/-- A PDF both of whose extraction strategies raise (e.g. a corrupt file). -/
def corruptPdf : FileContent := .pdf ⟨[], true, [], true, []⟩

/-- A PDF whose first (pdfplumber) strategy yields one page of text. -/
def helloPdfFile : PdfFile := ⟨[some "Hello"], false, [], false, []⟩

/-- The same PDF as a file on disk. -/
def helloPdf : FileContent := .pdf helloPdfFile

/-- A .docx with exactly the two paragraphs "Alice" and "Engineer". -/
def aliceDocx : DocxFile := ⟨["Alice", "Engineer"], [], false, []⟩

/-- A filesystem holding one legacy `.DOC` file whose bytes would be
perfectly extractable as a .docx document. -/
def legacyDocFs : String → Option FileContent := fun p =>
  if p = "legacy.DOC" then some (.docx ⟨["Extractable"], [], false, []⟩) else none

/-- A filesystem holding one job-description text file reading "Job". -/
def jobFileFs : String → Option FileContent := fun p =>
  if p = "jd.txt" then some (.raw [74, 111, 98]) else none

/-- A filesystem holding one ASCII text file whose bytes are "a\rb". -/
def crTxtFs : String → Option FileContent := fun p =>
  if p = "r.txt" then some (.raw [97, 13, 98]) else none

/-- A filesystem holding one text file reading "hello". -/
def helloTxtFs : String → Option FileContent := fun p =>
  if p = "hello.txt" then some (.raw [104, 101, 108, 108, 111]) else none

/-- A filesystem holding one text file whose single byte 0xFF is not valid
UTF-8. -/
def latinTxtFs : String → Option FileContent := fun p =>
  if p = "latin.txt" then some (.raw [255]) else none

/-! ## Helper lemmas -/

theorem bind_ok_iff {ε α β : Type} (x : Except ε α) (f : α → Except ε β) (r : β) :
    x.bind f = Except.ok r ↔ ∃ a, x = Except.ok a ∧ f a = Except.ok r := by
  cases x <;> simp [Except.bind]

theorem calculate_similarity_score_ok_iff (o : Oracle) (a : Json) :
    calculate_similarity_score o = .ok a ↔ o.scoreReply = .ok a := by
  unfold calculate_similarity_score
  cases o.scoreReply <;> simp

theorem extract_skills_ok_iff (o : Oracle) (a : Json) :
    extract_skills o = .ok a ↔ o.skillsReply = .ok a := by
  unfold extract_skills
  cases o.skillsReply <;> simp

theorem generate_recommendations_ok_iff (o : Oracle) (m a : Json) :
    generate_recommendations o m = .ok a ↔
      ∃ fields, o.recsReply = .ok (.obj fields) ∧
        a = dictGetD fields "recommendations" (.arr []) := by
  unfold generate_recommendations
  cases o.recsReply with
  | error e => simp
  | ok j => cases j <;> simp <;> exact eq_comm

theorem objGet_ok_inv (j : Json) (key : String) (d v : Json)
    (h : objGet j key d = .ok v) :
    ∃ fields, j = .obj fields ∧ v = dictGetD fields key d := by
  cases j <;> simp [objGet] at h
  case obj fields => exact ⟨fields, rfl, h.symm⟩

/-- Inversion for a successful `analyze_texts`: the three replies were
successfully parsed objects and the result is the merged record. -/
theorem analyze_texts_ok_inv (o : Oracle) (job resume : String)
    (r : List (String × Json)) (h : analyze_texts o job resume = .ok r) :
    ∃ ls lk lr,
      o.scoreReply = .ok (.obj ls) ∧ o.skillsReply = .ok (.obj lk) ∧
      o.recsReply = .ok (.obj lr) ∧
      r = [("similarity_score", dictGetD ls "similarity_score" (.num 0)),
           ("overall_match", dictGetD ls "overall_match" (.str "Unknown")),
           ("key_strengths", dictGetD ls "key_strengths" (.arr [])),
           ("analysis_summary", dictGetD ls "analysis_summary" (.str "")),
           ("matching_skills", dictGetD lk "matching_skills" (.arr [])),
           ("missing_skills", dictGetD lk "missing_skills" (.arr [])),
           ("partial_matches", dictGetD lk "partial_matches" (.arr [])),
           ("recommendations", dictGetD lr "recommendations" (.arr []))] := by
  unfold analyze_texts at h
  split at h
  · exact absurd h (by simp)
  split at h
  · exact absurd h (by simp)
  rw [bind_ok_iff] at h; obtain ⟨sim, hsim, h⟩ := h
  rw [bind_ok_iff] at h; obtain ⟨skl, hskl, h⟩ := h
  rw [bind_ok_iff] at h; obtain ⟨mis, hmis, h⟩ := h
  rw [bind_ok_iff] at h; obtain ⟨rec, hrec, h⟩ := h
  rw [bind_ok_iff] at h; obtain ⟨v1, hv1, h⟩ := h
  rw [bind_ok_iff] at h; obtain ⟨v2, hv2, h⟩ := h
  rw [bind_ok_iff] at h; obtain ⟨v3, hv3, h⟩ := h
  rw [bind_ok_iff] at h; obtain ⟨v4, hv4, h⟩ := h
  rw [bind_ok_iff] at h; obtain ⟨v5, hv5, h⟩ := h
  rw [bind_ok_iff] at h; obtain ⟨v6, hv6, h⟩ := h
  rw [bind_ok_iff] at h; obtain ⟨v7, hv7, h⟩ := h
  obtain ⟨ls, hls, hv1e⟩ := objGet_ok_inv _ _ _ _ hv1
  obtain ⟨lk, hlk, hmise⟩ := objGet_ok_inv _ _ _ _ hmis
  obtain ⟨lr, hlr, hrece⟩ := generate_recommendations_ok_iff o mis rec |>.mp hrec
  subst hls hlk
  rw [calculate_similarity_score_ok_iff] at hsim
  rw [extract_skills_ok_iff] at hskl
  refine ⟨ls, lk, lr, hsim, hskl, hlr, ?_⟩
  obtain ⟨ls2, hls2, hv2e⟩ := objGet_ok_inv _ _ _ _ hv2
  obtain ⟨ls3, hls3, hv3e⟩ := objGet_ok_inv _ _ _ _ hv3
  obtain ⟨ls4, hls4, hv4e⟩ := objGet_ok_inv _ _ _ _ hv4
  obtain ⟨lk5, hlk5, hv5e⟩ := objGet_ok_inv _ _ _ _ hv5
  obtain ⟨lk6, hlk6, hv6e⟩ := objGet_ok_inv _ _ _ _ hv6
  obtain ⟨lk7, hlk7, hv7e⟩ := objGet_ok_inv _ _ _ _ hv7
  injection hls2 with hls2; injection hls3 with hls3; injection hls4 with hls4
  injection hlk5 with hlk5; injection hlk6 with hlk6; injection hlk7 with hlk7
  subst hls2 hls3 hls4 hlk5 hlk6 hlk7
  simp only [Except.ok.injEq] at h
  subst hv1e hv2e hv3e hv4e hv5e hv6e hv7e hrece
  exact h.symm

/-- Inversion for a successful `analyze`: some pair of texts reached
`analyze_texts` and produced the result. -/
theorem analyze_ok_inv (fs : String → Option FileContent) (o : Oracle)
    (job resume : String) (r : List (String × Json))
    (h : analyze fs o job resume = .ok r) :
    ∃ jt rt, analyze_texts o jt rt = .ok r := by
  unfold analyze at h
  rw [bind_ok_iff] at h; obtain ⟨jt, _, h⟩ := h
  rw [bind_ok_iff] at h; obtain ⟨rt, _, h⟩ := h
  exact ⟨jt, rt, h⟩

/-- Key lookup in the merged record evaluates through `dictGetD`. -/
theorem dictGetD_of_none (fields : List (String × Json)) (key : String) (d : Json)
    (h : getField fields key = none) : dictGetD fields key d = d := by
  simp [dictGetD, h]

/-! ## Claims -/

/-- C1, counterexample: it is not the case that every successful `analyze`
run on valid inputs yields a `similarity_score` integer in [0, 100] — the
merge step copies the remote value without range validation, so a reply
carrying `similarity_score = 150` flows through unchanged. -/
theorem claim1_counterexample :
    ¬ (∀ (fs : String → Option FileContent) (o : Oracle) (job resume : String)
         (r : List (String × Json)),
         isBlank job = false → isBlank resume = false →
         analyze fs o job resume = .ok r →
         ∃ n : Int, getField r "similarity_score" = some (.num n) ∧
           0 ≤ n ∧ n ≤ 100) := by
  intro h
  obtain ⟨n, hn, _, hle⟩ :=
    h emptyFs outOfRangeOracle "j" "r" outOfRangeResult
      (by decide) (by decide) (by rfl)
  rw [show getField outOfRangeResult "similarity_score" = some (.num 150) from rfl]
    at hn
  simp only [Option.some.injEq, Json.num.injEq] at hn
  omega

/-- C1 (amended): for all inputs and all replies, `analyze` either fails with
a classified `AnalysisError` or returns a complete result: every one of the
eight fields is present, and `similarity_score` is exactly what the score
reply supplied under that key, defaulting to the integer 0 when the key is
absent (no range guarantee). -/
theorem claim1_complete_result_or_classified_error
    (fs : String → Option FileContent) (o : Oracle) (job resume : String)
    (r : List (String × Json)) (h : analyze fs o job resume = .ok r) :
    (∀ k ∈ resultKeys, (getField r k).isSome = true) ∧
    (∃ fields, o.scoreReply = .ok (.obj fields) ∧
       getField r "similarity_score" =
         some (dictGetD fields "similarity_score" (.num 0))) := by
  obtain ⟨jt, rt, h⟩ := analyze_ok_inv fs o job resume r h
  obtain ⟨ls, lk, lr, hs, hk, hc, hr⟩ := analyze_texts_ok_inv o jt rt r h
  subst hr
  constructor
  · intro k hk2
    simp only [resultKeys, List.mem_cons, List.not_mem_nil, or_false] at hk2
    rcases hk2 with rfl | rfl | rfl | rfl | rfl | rfl | rfl | rfl <;> simp [getField]
  · exact ⟨ls, hs, by simp [getField]⟩

/-- C1 witness: at the all-defaults oracle, `analyze` succeeds and the
amended conclusion holds of the returned record. -/
theorem claim1_witness :
    (∀ k ∈ resultKeys, (getField allDefaultResult k).isSome = true) ∧
    (∃ fields, emptyOracle.scoreReply = .ok (.obj fields) ∧
       getField allDefaultResult "similarity_score" =
         some (dictGetD fields "similarity_score" (.num 0))) :=
  claim1_complete_result_or_classified_error emptyFs emptyOracle "j" "r"
    allDefaultResult (by rfl)

/-- C2: when the three replies are parsed objects and `analyze` succeeds, a
missing key never fails the merge: each absent field of the score reply, the
skills reply or the recommendations reply is replaced by its default
(`similarity_score` by 0, `overall_match` by "Unknown", the five list
fields by the empty list). -/
theorem claim2_defaults_on_missing_keys
    (fs : String → Option FileContent) (o : Oracle) (job resume : String)
    (r ls lk lr : List (String × Json))
    (hs : o.scoreReply = .ok (.obj ls)) (hk : o.skillsReply = .ok (.obj lk))
    (hc : o.recsReply = .ok (.obj lr))
    (h : analyze fs o job resume = .ok r) :
    (getField ls "similarity_score" = none →
       getField r "similarity_score" = some (.num 0)) ∧
    (getField ls "overall_match" = none →
       getField r "overall_match" = some (.str "Unknown")) ∧
    (getField ls "key_strengths" = none →
       getField r "key_strengths" = some (.arr [])) ∧
    (getField lk "matching_skills" = none →
       getField r "matching_skills" = some (.arr [])) ∧
    (getField lk "missing_skills" = none →
       getField r "missing_skills" = some (.arr [])) ∧
    (getField lk "partial_matches" = none →
       getField r "partial_matches" = some (.arr [])) ∧
    (getField lr "recommendations" = none →
       getField r "recommendations" = some (.arr [])) := by
  obtain ⟨jt, rt, h⟩ := analyze_ok_inv fs o job resume r h
  obtain ⟨ls2, lk2, lr2, hs2, hk2, hc2, hr⟩ := analyze_texts_ok_inv o jt rt r h
  rw [hs] at hs2; rw [hk] at hk2; rw [hc] at hc2
  injection hs2 with hs2; injection hk2 with hk2; injection hc2 with hc2
  injection hs2 with hs2; injection hk2 with hk2; injection hc2 with hc2
  subst hs2 hk2 hc2 hr
  refine ⟨?_, ?_, ?_, ?_, ?_, ?_, ?_⟩ <;>
    intro hnone <;> simp [getField, dictGetD_of_none _ _ _ hnone]

/-- C2 witness: a skills reply without the `partial_matches` key merges to
`partial_matches = []`. -/
theorem claim2_witness :
    getField skillsMissingKeyResult "partial_matches" = some (.arr []) :=
  (claim2_defaults_on_missing_keys emptyFs skillsMissingKeyOracle "j" "r"
      skillsMissingKeyResult [] [("matching_skills", .arr [.str "Python"])] []
      rfl rfl rfl (by rfl)).2.2.2.2.2.1 rfl

/-- C3: when neither input names an existing file and either input is blank
after stripping, `analyze` fails with the validation error, and the outcome
does not depend on the oracle at all: no remote request is consulted. -/
theorem claim3_blank_input_validation_before_remote
    (fs : String → Option FileContent) (o : Oracle) (job resume : String)
    (hfj : fs job = none) (hfr : fs resume = none)
    (hblank : isBlank job = true ∨ isBlank resume = true) :
    (∃ msg, analyze fs o job resume = .error (.validationError msg)) ∧
    (∀ o2 : Oracle, analyze fs o job resume = analyze fs o2 job resume) := by
  have hj : (fs job).isSome = false := by rw [hfj]; rfl
  have hr : (fs resume).isSome = false := by rw [hfr]; rfl
  rcases hblank with hb | hb
  · constructor
    · exact ⟨"Job description cannot be empty",
        by simp [analyze, hj, hr, Except.bind, analyze_texts, hb]⟩
    · intro o2; simp [analyze, hj, hr, Except.bind, analyze_texts, hb]
  · by_cases hjb : isBlank job
    · constructor
      · exact ⟨"Job description cannot be empty",
          by simp [analyze, hj, hr, Except.bind, analyze_texts, hjb]⟩
      · intro o2; simp [analyze, hj, hr, Except.bind, analyze_texts, hjb]
    · constructor
      · exact ⟨"Resume cannot be empty",
          by simp [analyze, hj, hr, Except.bind, analyze_texts, hjb, hb]⟩
      · intro o2; simp [analyze, hj, hr, Except.bind, analyze_texts, hjb, hb]

/-- C3 witness: the empty resume string with non-file inputs. -/
theorem claim3_witness :
    (∃ msg, analyze emptyFs emptyOracle "job text" "" =
       .error (.validationError msg)) ∧
    (∀ o2 : Oracle, analyze emptyFs emptyOracle "job text" "" =
       analyze emptyFs o2 "job text" "") :=
  claim3_blank_input_validation_before_remote emptyFs emptyOracle "job text" ""
    rfl rfl (Or.inr (by decide))

/-- C10: every successful `analyze` returns a record whose keys are exactly
the eight result keys, in order, whatever extra or missing keys the replies
contained. -/
theorem claim10_result_has_exactly_eight_keys
    (fs : String → Option FileContent) (o : Oracle) (job resume : String)
    (r : List (String × Json)) (h : analyze fs o job resume = .ok r) :
    r.map Prod.fst = resultKeys := by
  obtain ⟨jt, rt, h⟩ := analyze_ok_inv fs o job resume r h
  obtain ⟨ls, lk, lr, _, _, _, hr⟩ := analyze_texts_ok_inv o jt rt r h
  subst hr
  rfl

/-- C10 witness: the all-defaults run returns exactly the eight keys. -/
theorem claim10_witness : allDefaultResult.map Prod.fst = resultKeys :=
  claim10_result_has_exactly_eight_keys emptyFs emptyOracle "j" "r"
    allDefaultResult (by rfl)

/-- C9: an input string that names an existing file is analyzed by that
file's extracted content, not by the path string: the run equals a run on a
fileless filesystem with the extracted text passed directly (for the job
input, and likewise when the resume input is also a file). -/
theorem claim9_file_inputs_analyzed_by_content
    (fs : String → Option FileContent) (o : Oracle) (job resume : String)
    (cj : FileContent) (tj : String)
    (hfj : fs job = some cj) (hext : extract_text_from_file job fs = .ok tj) :
    (fs resume = none →
       analyze fs o job resume = analyze emptyFs o tj resume) ∧
    (∀ cr tr, fs resume = some cr →
       extract_text_from_file resume fs = .ok tr →
       analyze fs o job resume = analyze emptyFs o tj tr) := by
  have hj : (fs job).isSome = true := by rw [hfj]; rfl
  constructor
  · intro hfr
    have hr : (fs resume).isSome = false := by rw [hfr]; rfl
    simp [analyze, hj, hr, hext, emptyFs, Except.bind]
  · intro cr tr hfr hextr
    have hr : (fs resume).isSome = true := by rw [hfr]; rfl
    simp [analyze, hj, hr, hext, hextr, emptyFs, Except.bind]

/-- C9 witness: analyzing the path "jd.txt" equals analyzing its content
"Job" directly. -/
theorem claim9_witness :
    analyze jobFileFs emptyOracle "jd.txt" "resume text" =
      analyze emptyFs emptyOracle "Job" "resume text" :=
  (claim9_file_inputs_analyzed_by_content jobFileFs emptyOracle "jd.txt"
      "resume text" (.raw [74, 111, 98]) "Job" (by rfl) (by rfl)).1 (by rfl)

/-- C4: evaluating `parse_contents` at a `.pdf` upload whose extraction
raises shows the temporary file `./tmp/resume.pdf` is still present
afterwards, while a successful extraction removes it — the cleanup is not
on all exit paths. -/
theorem claim4_temp_file_left_on_failed_extraction :
    parse_contents [] "resume.pdf" corruptPdf = (none, ["./tmp/resume.pdf"]) ∧
    parse_contents [] "resume.pdf" helloPdf = (some "Hello\n", []) :=
  ⟨rfl, rfl⟩

/-- C5: a path whose lowercased suffix is `.doc` is rejected before any
extraction strategy runs — the outcome is the fixed `ExtractionError`
directing the caller to convert to .docx, whatever the file's content. -/
theorem claim5_doc_rejected_immediately
    (file_path : String) (fs : String → Option FileContent)
    (content : FileContent) (hex : fs file_path = some content)
    (hdoc : strToLower (pathSuffix file_path) = ".doc") :
    extract_text_from_file file_path fs =
      .error (.extractionError
        "Legacy .doc format is not supported. Please convert your file to .docx format using Microsoft Word or a free converter.") := by
  unfold extract_text_from_file
  rw [hex]
  simp [hdoc]

/-- C5 witness: a `.DOC` file with extractable content is still rejected. -/
theorem claim5_witness :
    extract_text_from_file "legacy.DOC" legacyDocFs =
      .error (.extractionError
        "Legacy .doc format is not supported. Please convert your file to .docx format using Microsoft Word or a free converter.") :=
  claim5_doc_rejected_immediately "legacy.DOC" legacyDocFs
    (.docx ⟨["Extractable"], [], false, []⟩) (by rfl) (by decide)

/-- A successful PyPDF2 fallback never returns whitespace-only text. -/
theorem pdfMethod2_ok_not_blank (f : PdfFile) (text s : String)
    (h : pdfMethod2 f text = .ok s) : isBlank s = false := by
  simp only [pdfMethod2] at h
  split at h
  · exact absurd h (by simp)
  · split at h
    · exact absurd h (by simp)
    next h3 =>
      injection h with h
      subst h
      simpa using h3

/-- C6: PDF extraction tries pdfplumber first and returns its text exactly
when pdfplumber did not raise and produced non-whitespace; every successful
extraction returns non-whitespace text; and when pdfplumber's text is
whitespace-only and the PyPDF2 fallback also accumulates only whitespace,
extraction fails. -/
theorem claim6_pdf_plumber_first_then_pypdf_never_blank (f : PdfFile) :
    (f.plumberThrows = false → isBlank (plumberText f) = false →
       extract_from_pdf f = .ok (plumberText f)) ∧
    (∀ s, extract_from_pdf f = .ok s → isBlank s = false) ∧
    (isBlank (plumberText f) = true → f.pypdfThrows = false →
     isBlank (f.pypdfPages.foldl (fun acc p => acc ++ p ++ "\n")
       (plumberText f)) = true →
       ∃ e, extract_from_pdf f = .error e) := by
  refine ⟨?_, ?_, ?_⟩
  · intro h1 h2
    simp [extract_from_pdf, h1, h2]
  · intro s hs
    simp only [extract_from_pdf] at hs
    split at hs
    · exact pdfMethod2_ok_not_blank _ _ _ hs
    · split at hs
      · exact pdfMethod2_ok_not_blank _ _ _ hs
      next h2 =>
        injection hs with hs
        subst hs
        simpa using h2
  · intro h2 h3 h4
    refine ⟨"Failed to extract text from PDF: No text could be extracted from PDF", ?_⟩
    have hm2 : pdfMethod2 f (plumberText f) =
        .error "Failed to extract text from PDF: No text could be extracted from PDF" := by
      unfold pdfMethod2
      rw [if_neg (by simp [h3]), if_pos h4]
    unfold extract_from_pdf
    by_cases h1 : f.plumberThrows
    · rw [if_pos h1]; exact hm2
    · rw [if_neg h1, if_pos h2]; exact hm2

/-- C6 witness: a PDF whose pdfplumber pass yields "Hello" extracts to
"Hello\n" via the first strategy. -/
theorem claim6_witness : extract_from_pdf helloPdfFile = .ok "Hello\n" :=
  (((claim6_pdf_plumber_first_then_pypdf_never_blank helloPdfFile).1
      rfl (by decide)).trans (by rfl))

/-- Folding blank-filtered appends equals appending the filtered list. -/
theorem foldl_append_filter (l acc : List String) :
    l.foldl (fun a p => if isBlank p then a else a ++ [p]) acc
      = acc ++ l.filter (fun p => !isBlank p) := by
  induction l generalizing acc with
  | nil => simp
  | cons x xs ih =>
    by_cases h : isBlank x <;>
      simp [h, ih, List.filter_cons, List.append_assoc]

/-- Folding appends of a function over a list is appending its flatMap. -/
theorem foldl_append_flatMap {α β : Type} (g : α → List β) (l : List α)
    (acc : List β) :
    l.foldl (fun a x => a ++ g x) acc = acc ++ l.flatMap g := by
  induction l generalizing acc with
  | nil => simp
  | cons x xs ih => simp [ih, List.append_assoc]

/-- Table-level version of `foldl_append_filter`. -/
theorem foldl_tables_filter (ts : List (List (List String)))
    (acc : List String) :
    ts.foldl (fun a t => t.foldl (fun a2 r =>
        r.foldl (fun a3 c => if isBlank c then a3 else a3 ++ [c]) a2) a) acc
      = acc ++ ts.flatMap (fun t => t.flatMap (fun r =>
          r.filter (fun c => !isBlank c))) := by
  have hrows : ∀ (t : List (List String)) (a : List String),
      t.foldl (fun a2 r =>
        r.foldl (fun a3 c => if isBlank c then a3 else a3 ++ [c]) a2) a
      = a ++ t.flatMap (fun r => r.filter (fun c => !isBlank c)) := by
    intro t a
    have hfun : (fun (a2 : List String) (r : List String) =>
        r.foldl (fun a3 c => if isBlank c then a3 else a3 ++ [c]) a2)
        = fun a2 r => a2 ++ r.filter (fun c => !isBlank c) := by
      funext a2 r
      exact foldl_append_filter r a2
    rw [hfun]
    exact foldl_append_flatMap _ t a
  have hfun2 : (fun (a : List String) (t : List (List String)) =>
      t.foldl (fun a2 r =>
        r.foldl (fun a3 c => if isBlank c then a3 else a3 ++ [c]) a2) a)
      = fun a t => a ++ t.flatMap (fun r => r.filter (fun c => !isBlank c)) := by
    funext a t
    exact hrows t a
  rw [hfun2]
  exact foldl_append_flatMap _ ts acc

/-- C7: .docx extraction returns the non-blank paragraph texts in order,
followed by the non-blank table-cell texts in order (tables, rows, cells),
joined with newlines. -/
theorem claim7_docx_paragraphs_then_cells (f : DocxFile)
    (h : f.throws = false) :
    extract_from_docx f = .ok (String.intercalate "\n"
      (f.paragraphs.filter (fun p => !isBlank p) ++
        f.tables.flatMap (fun t => t.flatMap (fun r =>
          r.filter (fun c => !isBlank c))))) := by
  unfold extract_from_docx
  rw [if_neg (by simp [h]), foldl_append_filter, List.nil_append,
    foldl_tables_filter]

/-- C7 witness: the two-paragraph document ("Alice", "Engineer") extracts to
"Alice\nEngineer". -/
theorem claim7_witness : extract_from_docx aliceDocx = .ok "Alice\nEngineer" :=
  (claim7_docx_paragraphs_then_cells aliceDocx rfl).trans (by rfl)

/-- An ASCII byte is decoded to itself, consuming nothing further. -/
theorem utf8Step_ascii (b : Nat) (rest : List Nat) (hb : b < 128) :
    utf8Step b rest = some (b, rest) := by
  unfold utf8Step
  rw [if_pos hb]

/-- ASCII byte sequences decode to themselves, given enough fuel. -/
theorem utf8DecodeGo_ascii (fuel : Nat) (bs : List Nat)
    (hlen : bs.length ≤ fuel) (h : ∀ b ∈ bs, b < 128) :
    utf8DecodeGo fuel bs = some bs := by
  induction fuel generalizing bs with
  | zero =>
    cases bs with
    | nil => rfl
    | cons b rest => simp at hlen
  | succ fuel ih =>
    cases bs with
    | nil => rfl
    | cons b rest =>
      have hb : b < 128 := h b (by simp)
      simp only [utf8DecodeGo, utf8Step_ascii b rest hb]
      rw [ih rest (by simp only [List.length_cons] at hlen; omega)
        (fun x hx => h x (by simp [hx]))]
      rfl

/-- ASCII byte sequences decode to themselves under strict UTF-8. -/
theorem utf8Decode_ascii (bs : List Nat) (h : ∀ b ∈ bs, b < 128) :
    utf8Decode bs = some bs :=
  utf8DecodeGo_ascii bs.length bs le_rfl h

/-- Newline translation is the identity on carriage-return-free text. -/
theorem universalNewlines_no_cr (cs : List Char) (h : '\r' ∉ cs) :
    universalNewlines cs = cs := by
  induction cs with
  | nil => rfl
  | cons c rest ih =>
    have hc : ¬ c = '\r' := fun e => h (by simp [e])
    cases rest with
    | nil => simp [universalNewlines, hc]
    | cons d rest2 =>
      have h2 : '\r' ∉ d :: rest2 := fun hm => h (List.mem_cons_of_mem _ hm)
      simp [universalNewlines, hc, ih h2]

/-- A string is its own character data, repackaged. -/
theorem data_asString (s : String) : s.data.asString = s := by
  cases s
  rfl

/-- Dispatch of `extract_text_from_file` for a `.txt` suffix. -/
theorem extract_text_txt (path : String) (fs : String → Option FileContent)
    (content : FileContent) (hfs : fs path = some content)
    (hsuf : strToLower (pathSuffix path) = ".txt") :
    extract_text_from_file path fs =
      .ok (extract_from_txt (contentBytes content)) := by
  unfold extract_text_from_file
  rw [hfs]
  simp only [hsuf]
  rw [if_neg (by decide), if_neg (by decide), if_neg (by decide)]

/-- C8, counterexample: the write-then-extract round trip is not the
identity on all ASCII contents — the text-mode read translates the ASCII
carriage return, so the file whose bytes spell "a\rb" extracts to "a\nb". -/
theorem claim8_counterexample :
    ¬ (∀ (path : String) (fs : String → Option FileContent) (s : String),
         strToLower (pathSuffix path) = ".txt" →
         fs path = some (.raw (s.data.map Char.toNat)) →
         (∀ c ∈ s.data, c.toNat < 128) →
         extract_text_from_file path fs = .ok s) := by
  intro h
  have hx := h "r.txt" crTxtFs "a\rb" (by decide) (by decide) (by decide)
  rw [show extract_text_from_file "r.txt" crTxtFs = .ok "a\nb" from by rfl] at hx
  injection hx with hx
  exact absurd hx (by decide)

/-- C8 (amended): a `.txt` file whose content is ASCII with no carriage
return extracts to exactly that content (carriage returns would be
normalized to newlines by the text-mode read); and a `.txt` file whose
bytes are not valid UTF-8 is re-read as Latin-1 instead of failing. -/
theorem claim8_txt_ascii_roundtrip_and_latin1_fallback :
    (∀ (path : String) (fs : String → Option FileContent) (s : String),
       strToLower (pathSuffix path) = ".txt" →
       fs path = some (.raw (s.data.map Char.toNat)) →
       (∀ c ∈ s.data, c.toNat < 128) → '\r' ∉ s.data →
       extract_text_from_file path fs = .ok s) ∧
    (∀ (path : String) (fs : String → Option FileContent) (bs : List Nat),
       strToLower (pathSuffix path) = ".txt" →
       fs path = some (.raw bs) →
       utf8Decode bs = none →
       extract_text_from_file path fs =
         .ok ((universalNewlines (bs.map Char.ofNat)).asString)) := by
  constructor
  · intro path fs s hsuf hfs hascii hnocr
    rw [extract_text_txt path fs _ hfs hsuf]
    have hb : ∀ b ∈ s.data.map Char.toNat, b < 128 := by
      intro b hb
      obtain ⟨c, hc, rfl⟩ := List.mem_map.mp hb
      exact hascii c hc
    simp only [contentBytes, extract_from_txt, utf8Decode_ascii _ hb,
      List.map_map]
    have hmap : s.data.map (Char.ofNat ∘ Char.toNat) = s.data := by
      simp [Function.comp_def, Char.ofNat_toNat]
    rw [hmap, universalNewlines_no_cr s.data hnocr, data_asString]
  · intro path fs bs hsuf hfs hdec
    rw [extract_text_txt path fs _ hfs hsuf]
    simp [contentBytes, extract_from_txt, hdec]

/-- C8 witness: "hello" round-trips, and the non-UTF-8 byte 0xFF is decoded
via Latin-1 rather than failing. -/
theorem claim8_witness :
    extract_text_from_file "hello.txt" helloTxtFs = .ok "hello" ∧
    extract_text_from_file "latin.txt" latinTxtFs =
      .ok ((universalNewlines (([255] : List Nat).map Char.ofNat)).asString) :=
  ⟨claim8_txt_ascii_roundtrip_and_latin1_fallback.1 "hello.txt" helloTxtFs
      "hello" (by decide) (by decide) (by decide) (by decide),
   claim8_txt_ascii_roundtrip_and_latin1_fallback.2 "latin.txt" latinTxtFs
      [255] (by decide) (by decide) (by rfl)⟩

end CareerMgmt
